import Mathlib

/-!
Verification of the Advisory Scoring Module of the agriculture-forecasting
repository: a shallow embedding in Lean 4 of the deterministic scoring
functions in `forecast/views.py`, `forecast/ml_models/price_predictor.py`
and `forecast/ml_models/yield_predictor.py`, together with proofs of the
specified properties.

Numbers are modelled as exact rationals (`ℚ`); Python's `round(x, 2)` is
modelled as round-half-to-even at two decimal places; the pseudo-random
seasonal draws of the price forecaster are modelled as an explicit
`draw : ℕ → ℚ` parameter (one draw per month visited), so every theorem
quantifies over all possible values of the randomness.
-/

namespace AgriForecast

/-- Model of Python's `str.lower()` (ASCII data): lowercase every character.
Extensionally this is `String.toLower`; it is stated directly on the
character list so that it reduces inside the kernel. -/
def pyLower (s : String) : String := ⟨s.data.map Char.toLower⟩

/-- Model of Python's `round(x, 2)`: round `x` to the nearest multiple of
`1/100`, ties going to the even multiple (banker's rounding). -/
def round2 (q : ℚ) : ℚ :=
  let s := q * 100
  let n : ℤ :=
    if Int.fract s = 1/2 then (if ⌊s⌋ % 2 = 0 then ⌊s⌋ else ⌊s⌋ + 1)
    else round s
  (n : ℚ) / 100

/-- `forecast/views.py`, `calculate_yield_loss`: severity-to-loss table,
looked up on the lowercased severity string with default `0.0`. -/
def calculate_yield_loss (severity : String) : ℚ :=
  if pyLower severity = "low" then 5
  else if pyLower severity = "medium" then 15
  else if pyLower severity = "high" then 30
  else 0

/-- Output record of `calculate_selling_recommendation` (`forecast/views.py`).
The free-text `reason` field is omitted; all numeric fields are kept. -/
structure SellingRecommendation where
  total_current_value : ℚ
  total_future_value : ℚ
  profit_delta : ℚ
  profit_percentage : ℚ
  recommendation : String
  storage_cost_estimate : ℚ
  net_profit_after_storage : ℚ
  is_profitable_to_store : Bool
  break_even_price : ℚ
  deriving Repr

/-- Step 7 of `calculate_selling_recommendation`: the four-branch
priority chain choosing between SELL and STORE. -/
def recommendationLabel (cold_storage_available urgent_cash_needed : Bool)
    (net_profit_after_storage profit_threshold : ℚ) : String :=
  if urgent_cash_needed then "SELL"
  else if cold_storage_available ∧ profit_threshold < net_profit_after_storage then "STORE"
  else if cold_storage_available ∧ net_profit_after_storage ≤ profit_threshold then "SELL"
  else "SELL"

/-- `forecast/views.py`, `calculate_selling_recommendation` (lines 78–163). -/
def calculate_selling_recommendation (predicted_yield current_price peak_price : ℚ)
    (cold_storage_available urgent_cash_needed : Bool)
    (profit_threshold : ℚ := 1000) : SellingRecommendation :=
  let total_current_value := round2 (predicted_yield * current_price)
  let total_future_value := round2 (predicted_yield * peak_price)
  let profit_delta := round2 (total_future_value - total_current_value)
  let profit_percentage :=
    if 0 < total_current_value then round2 (profit_delta / total_current_value * 100) else 0
  let storage_cost_percentage : ℚ := 5
  let storage_cost_estimate := round2 (total_current_value * (storage_cost_percentage / 100))
  let net_profit_after_storage := round2 (profit_delta - storage_cost_estimate)
  { total_current_value := total_current_value
    total_future_value := total_future_value
    profit_delta := profit_delta
    profit_percentage := profit_percentage
    recommendation :=
      recommendationLabel cold_storage_available urgent_cash_needed
        net_profit_after_storage profit_threshold
    storage_cost_estimate := storage_cost_estimate
    net_profit_after_storage := net_profit_after_storage
    is_profitable_to_store := decide (profit_threshold < net_profit_after_storage)
    break_even_price :=
      if 0 < predicted_yield then
        round2 (current_price + storage_cost_estimate / predicted_yield)
      else 0 }

/-- One crop's entry of `PricePredictor.baseline_prices`
(`forecast/ml_models/price_predictor.py`). -/
structure PriceBaseline where
  average : ℚ
  min : ℚ
  max : ℚ
  peak_months : List ℕ
  low_months : List ℕ
  deriving Repr

/-- `PricePredictor.baseline_prices`, looked up on the lowercased crop name,
with the default entry used by `PricePredictor.predict` for unknown crops. -/
def baselinePrices (crop_type : String) : PriceBaseline :=
  if pyLower crop_type = "paddy" then ⟨2200, 1800, 2800, [11, 12, 1], [5, 6, 7]⟩
  else if pyLower crop_type = "mango" then ⟨3200, 2000, 5000, [3, 4], [5, 6]⟩
  else if pyLower crop_type = "chillies" then ⟨9000, 6000, 15000, [1, 12], [3, 4]⟩
  else if pyLower crop_type = "cotton" then ⟨7200, 5500, 9500, [9, 10], [12, 1, 2]⟩
  else if pyLower crop_type = "turmeric" then ⟨9500, 7000, 13000, [12, 1], [3, 4]⟩
  else if pyLower crop_type = "sugarcane" then ⟨350, 280, 450, [11, 12], [2, 3]⟩
  else if pyLower crop_type = "banana" then ⟨1800, 1200, 2800, [11, 12, 1, 2], [5, 6, 7]⟩
  else if pyLower crop_type = "tomato" then ⟨1400, 600, 3500, [4, 5, 6], [11, 12, 1]⟩
  else if pyLower crop_type = "okra" then ⟨2200, 1200, 4000, [3, 4, 11], [1, 2, 6, 7]⟩
  else if pyLower crop_type = "brinjal" then ⟨2000, 1000, 3500, [4, 5], [12, 1]⟩
  else if pyLower crop_type = "maize" then ⟨2100, 1700, 2800, [1, 8], [3, 4, 10, 11]⟩
  else if pyLower crop_type = "groundnut" then ⟨6200, 4800, 8500, [7, 8], [10, 11]⟩
  else ⟨2500, 2000, 3500, [1], [6]⟩

/-- `PricePredictor.predict`, lines 219–221: substitute the baseline
average when `current_price` is `None` or non-positive. -/
def effectiveCurrentPrice (crop_type : String) (current_price : Option ℚ) : ℚ :=
  match current_price with
  | none => (baselinePrices crop_type).average
  | some p => if p ≤ 0 then (baselinePrices crop_type).average else p

/-- `_statistical_prediction`'s `supply_multiplier` table with default `1.0`. -/
def supplyFactor (supply_level : String) : ℚ :=
  if pyLower supply_level = "low" then 1.2
  else if pyLower supply_level = "normal" then 1.0
  else if pyLower supply_level = "high" then 0.85
  else 1.0

/-- `_statistical_prediction`'s `demand_multiplier` table with default `1.0`. -/
def demandFactor (demand_level : String) : ℚ :=
  if pyLower demand_level = "low" then 0.9
  else if pyLower demand_level = "normal" then 1.0
  else if pyLower demand_level = "high" then 1.15
  else 1.0

/-- The loop of `_statistical_prediction` lines 320–323: fold `max` of the
seasonal draw for each peak month over the initial value `1.0`.  The `draw`
argument models the pseudo-random value returned by
`calculate_seasonal_factor` for each month. -/
def peakSeasonalFactor (draw : ℕ → ℚ) (peak_months : List ℕ) : ℚ :=
  peak_months.foldl (fun acc month => max acc (draw month)) 1.0

/-- Output of `PricePredictor._statistical_prediction` (numeric fields of the
returned dict that the claims refer to, before the 2-decimal display
rounding of the `return` statement). -/
structure StatPrediction where
  predicted_peak_price : ℚ
  predicted_low_price : ℚ
  price_increase : ℚ
  supply_factor : ℚ
  demand_factor : ℚ
  peak_seasonal_factor : ℚ
  deriving Repr

/-- `PricePredictor._statistical_prediction` (lines 301–344), with the crop
data looked up as in `predict` and the random seasonal draws passed in
explicitly. -/
def statisticalPrediction (crop_type : String) (current_price : ℚ) (_current_month : ℕ)
    (supply_level demand_level : String) (draw : ℕ → ℚ) : StatPrediction :=
  let crop_data := baselinePrices crop_type
  let max_price := crop_data.max
  let min_price := crop_data.min
  let peak_months := crop_data.peak_months
  let supply_factor := supplyFactor supply_level
  let demand_factor := demandFactor demand_level
  let peak_seasonal_factor := peakSeasonalFactor draw peak_months
  let combined_factor := peak_seasonal_factor * supply_factor * demand_factor
  let combined_factor := min combined_factor 1.5
  let predicted_peak_price := current_price * combined_factor
  let predicted_peak_price := min predicted_peak_price max_price
  let predicted_peak_price := max predicted_peak_price (current_price * 1.05)
  let predicted_low_price := current_price * 0.85
  let predicted_low_price := max predicted_low_price min_price
  { predicted_peak_price := predicted_peak_price
    predicted_low_price := predicted_low_price
    price_increase := predicted_peak_price - current_price
    supply_factor := supply_factor
    demand_factor := demand_factor
    peak_seasonal_factor := peak_seasonal_factor }

/-- `PricePredictor.predict` in the serving configuration (no trained model on
disk, so the statistical fallback always runs): substitute the effective
current price, then run `_statistical_prediction`. -/
def predictPrice (crop_type : String) (current_price : Option ℚ) (current_month : ℕ)
    (supply_level demand_level : String) (draw : ℕ → ℚ) : StatPrediction :=
  statisticalPrediction crop_type (effectiveCurrentPrice crop_type current_price)
    current_month supply_level demand_level draw

/-- Peak-price formula as claim C2 of the specification states it: the
current price times the factor product capped at `1.5`, floored at the
crop's historical minimum price.  Spec-side definition, to be compared with
the code-side `predictPrice`. -/
def claimPeakPriceC2 (crop_type : String) (current_price : Option ℚ)
    (supply_level demand_level : String) (draw : ℕ → ℚ) : ℚ :=
  let crop_data := baselinePrices crop_type
  let c := effectiveCurrentPrice crop_type current_price
  let combined_factor :=
    min (peakSeasonalFactor draw crop_data.peak_months
          * supplyFactor supply_level * demandFactor demand_level) 1.5
  max (c * combined_factor) crop_data.min

/-- One crop's entry of `YieldPredictor.base_yield_data`
(`forecast/ml_models/yield_predictor.py`), with the optimal ranges split
into explicit lower/upper bounds. -/
structure CropYieldData where
  average : ℚ
  min : ℚ
  max : ℚ
  optimal_temp_lo : ℚ
  optimal_temp_hi : ℚ
  optimal_rainfall_lo : ℚ
  optimal_rainfall_hi : ℚ
  optimal_humidity_lo : ℚ
  optimal_humidity_hi : ℚ
  deriving Repr

/-- `YieldPredictor.base_yield_data`, looked up on the lowercased crop name,
with the default entry used by `YieldPredictor.predict` for unknown crops. -/
def baseYieldData (crop_type : String) : CropYieldData :=
  if pyLower crop_type = "paddy" then ⟨25, 15, 35, 25, 35, 1200, 2000, 70, 85⟩
  else if pyLower crop_type = "mango" then ⟨30, 20, 50, 24, 30, 750, 2500, 60, 75⟩
  else if pyLower crop_type = "chillies" then ⟨12, 7, 18, 20, 30, 600, 1250, 60, 70⟩
  else if pyLower crop_type = "cotton" then ⟨8, 5, 12, 21, 30, 500, 1000, 50, 70⟩
  else if pyLower crop_type = "turmeric" then ⟨20, 12, 30, 20, 30, 1500, 2250, 70, 80⟩
  else if pyLower crop_type = "sugarcane" then ⟨250, 180, 350, 21, 27, 1500, 2500, 70, 80⟩
  else if pyLower crop_type = "banana" then ⟨150, 100, 200, 15, 35, 1800, 2700, 75, 85⟩
  else if pyLower crop_type = "tomato" then ⟨100, 60, 150, 18, 27, 600, 1300, 60, 70⟩
  else if pyLower crop_type = "okra" then ⟨40, 25, 60, 25, 35, 600, 1000, 60, 70⟩
  else if pyLower crop_type = "brinjal" then ⟨80, 50, 120, 22, 30, 600, 1000, 65, 75⟩
  else if pyLower crop_type = "maize" then ⟨15, 10, 25, 21, 27, 600, 1200, 60, 70⟩
  else if pyLower crop_type = "groundnut" then ⟨10, 6, 15, 25, 30, 500, 1250, 50, 70⟩
  else ⟨15, 10, 25, 20, 30, 500, 1500, 60, 75⟩

/-- Temperature factor of `_physics_based_prediction` (lines 339–344). -/
def tempFactor (crop_data : CropYieldData) (temperature : ℚ) : ℚ :=
  if crop_data.optimal_temp_lo ≤ temperature ∧ temperature ≤ crop_data.optimal_temp_hi then 1.1
  else if temperature < crop_data.optimal_temp_lo - 10
      ∨ crop_data.optimal_temp_hi + 10 < temperature then 0.6
  else 0.85

/-- Rainfall factor of `_physics_based_prediction` (lines 346–355): the
monthly rainfall is scaled to an annual estimate before the breakpoints. -/
def rainFactor (crop_data : CropYieldData) (rainfall : ℚ) : ℚ :=
  let annual_rainfall_estimate := rainfall * 12
  if crop_data.optimal_rainfall_lo ≤ annual_rainfall_estimate
      ∧ annual_rainfall_estimate ≤ crop_data.optimal_rainfall_hi then 1.15
  else if annual_rainfall_estimate < crop_data.optimal_rainfall_lo * 0.5 then 0.5
  else if crop_data.optimal_rainfall_hi * 1.5 < annual_rainfall_estimate then 0.7
  else 0.9

/-- Humidity factor of `_physics_based_prediction` (lines 357–363). -/
def humidFactor (crop_data : CropYieldData) (humidity : ℚ) : ℚ :=
  if crop_data.optimal_humidity_lo ≤ humidity
      ∧ humidity ≤ crop_data.optimal_humidity_hi then 1.1
  else if humidity < crop_data.optimal_humidity_lo - 20
      ∨ crop_data.optimal_humidity_hi + 20 < humidity then 0.7
  else 0.9

/-- Combined weather factor of `_physics_based_prediction` (lines 365–367):
the mean of the three factors, clamped by `max(0.5, min(1.3, ·))`. -/
def weatherFactor (crop_data : CropYieldData) (rainfall temperature humidity : ℚ) : ℚ :=
  let temp_factor := tempFactor crop_data temperature
  let rain_factor := rainFactor crop_data rainfall
  let humid_factor := humidFactor crop_data humidity
  let weather_factor := (temp_factor + rain_factor + humid_factor) / 3
  max 0.5 (min 1.3 weather_factor)

/-- Final predicted yield of `YieldPredictor.predict` in the serving
configuration (no trained model, physics-based fallback): the base yield
`average × acres` computed in `predict` (lines 277–278) fed through
`_physics_based_prediction` (lines 369–375). -/
def physicsFinalYield (crop_type : String)
    (acres rainfall temperature humidity disease_yield_loss : ℚ) : ℚ :=
  let crop_data := baseYieldData crop_type
  let base_total_yield := crop_data.average * acres
  let weather_factor := weatherFactor crop_data rainfall temperature humidity
  let yield_after_weather := base_total_yield * weather_factor
  let disease_loss_amount := yield_after_weather * (disease_yield_loss / 100)
  let final_yield := yield_after_weather - disease_loss_amount
  max 0 final_yield

/-! ### Helper lemmas -/

/-- A strictly positive projection survives a two-way branch. -/
lemma pos_ite {α : Type} (c : Prop) [Decidable c] (f : α → ℚ) (x y : α)
    (hx : 0 < f x) (hy : 0 < f y) : 0 < f (if c then x else y) := by
  split <;> assumption

/-- Every crop's baseline average price, including the default entry, is
strictly positive. -/
lemma baselinePrices_average_pos (crop_type : String) :
    0 < (baselinePrices crop_type).average := by
  unfold baselinePrices
  repeat' apply pos_ite _ PriceBaseline.average
  all_goals norm_num

/-- The effective current price used by `predict` is always strictly
positive. -/
lemma effectiveCurrentPrice_pos (crop_type : String) (current_price : Option ℚ) :
    0 < effectiveCurrentPrice crop_type current_price := by
  cases current_price with
  | none =>
    simp only [effectiveCurrentPrice]
    exact baselinePrices_average_pos crop_type
  | some p =>
    simp only [effectiveCurrentPrice]
    by_cases hp : p ≤ 0
    · rw [if_pos hp]; exact baselinePrices_average_pos crop_type
    · rw [if_neg hp]; exact lt_of_not_le hp

/-- Every crop's base yield per acre, including the default entry, is
strictly positive. -/
lemma baseYieldData_average_pos (crop_type : String) :
    0 < (baseYieldData crop_type).average := by
  unfold baseYieldData
  repeat' apply pos_ite _ CropYieldData.average
  all_goals norm_num

/-- A `foldl` of binary `max` never drops below its initial accumulator. -/
lemma le_foldl_max (draw : ℕ → ℚ) (l : List ℕ) :
    ∀ a : ℚ, a ≤ l.foldl (fun acc month => max acc (draw month)) a := by
  induction l with
  | nil => intro a; exact le_refl a
  | cons m t ih =>
    intro a
    rw [List.foldl_cons]
    exact le_trans (le_max_left a (draw m)) (ih (max a (draw m)))

/-- The peak seasonal factor starts at `1.0` and only grows. -/
lemma one_le_peakSeasonalFactor (draw : ℕ → ℚ) (peak_months : List ℕ) :
    (1 : ℚ) ≤ peakSeasonalFactor draw peak_months := by
  have h10 : (1.0 : ℚ) = 1 := by norm_num
  unfold peakSeasonalFactor
  rw [h10]
  exact le_foldl_max draw peak_months 1

/-- The peak price field of `_statistical_prediction`, written as one
nested `max`/`min` expression. -/
lemma statisticalPrediction_peak_eq (crop_type : String) (current_price : ℚ)
    (current_month : ℕ) (supply_level demand_level : String) (draw : ℕ → ℚ) :
    (statisticalPrediction crop_type current_price current_month
        supply_level demand_level draw).predicted_peak_price
      = max (min (current_price
            * min (peakSeasonalFactor draw (baselinePrices crop_type).peak_months
                * supplyFactor supply_level * demandFactor demand_level) 1.5)
            (baselinePrices crop_type).max)
          (current_price * 1.05) := rfl

/-- The low price field of `_statistical_prediction`. -/
lemma statisticalPrediction_low_eq (crop_type : String) (current_price : ℚ)
    (current_month : ℕ) (supply_level demand_level : String) (draw : ℕ → ℚ) :
    (statisticalPrediction crop_type current_price current_month
        supply_level demand_level draw).predicted_low_price
      = max (current_price * 0.85) (baselinePrices crop_type).min := rfl

/-- The temperature factor always lies in `[0.6, 1.1]`. -/
lemma tempFactor_bounds (crop_data : CropYieldData) (temperature : ℚ) :
    0.6 ≤ tempFactor crop_data temperature ∧ tempFactor crop_data temperature ≤ 1.1 := by
  unfold tempFactor
  split_ifs <;> norm_num

/-- The rainfall factor always lies in `[0.5, 1.15]`. -/
lemma rainFactor_bounds (crop_data : CropYieldData) (rainfall : ℚ) :
    0.5 ≤ rainFactor crop_data rainfall ∧ rainFactor crop_data rainfall ≤ 1.15 := by
  simp only [rainFactor]
  split_ifs <;> norm_num

/-- The humidity factor always lies in `[0.7, 1.1]`. -/
lemma humidFactor_bounds (crop_data : CropYieldData) (humidity : ℚ) :
    0.7 ≤ humidFactor crop_data humidity ∧ humidFactor crop_data humidity ≤ 1.1 := by
  unfold humidFactor
  split_ifs <;> norm_num

/-- The clamp in `weatherFactor` never binds: the mean of the three factors
already lies inside `[0.5, 1.3]`, so the weather factor equals the plain
mean. -/
lemma weatherFactor_eq_mean (crop_data : CropYieldData) (rainfall temperature humidity : ℚ) :
    weatherFactor crop_data rainfall temperature humidity
      = (tempFactor crop_data temperature + rainFactor crop_data rainfall
          + humidFactor crop_data humidity) / 3 := by
  obtain ⟨ht1, ht2⟩ := tempFactor_bounds crop_data temperature
  obtain ⟨hr1, hr2⟩ := rainFactor_bounds crop_data rainfall
  obtain ⟨hh1, hh2⟩ := humidFactor_bounds crop_data humidity
  simp only [weatherFactor]
  rw [min_eq_right (by linarith), max_eq_right (by linarith)]

/-- The weather factor is at least `0.5`. -/
lemma half_le_weatherFactor (crop_data : CropYieldData) (rainfall temperature humidity : ℚ) :
    (0.5 : ℚ) ≤ weatherFactor crop_data rainfall temperature humidity := by
  obtain ⟨ht1, _⟩ := tempFactor_bounds crop_data temperature
  obtain ⟨hr1, _⟩ := rainFactor_bounds crop_data rainfall
  obtain ⟨hh1, _⟩ := humidFactor_bounds crop_data humidity
  rw [weatherFactor_eq_mean]
  linarith

/-- Closed form of the physics-based final yield. -/
lemma physicsFinalYield_eq (crop_type : String)
    (acres rainfall temperature humidity disease_yield_loss : ℚ) :
    physicsFinalYield crop_type acres rainfall temperature humidity disease_yield_loss
      = max 0 ((baseYieldData crop_type).average * acres
          * weatherFactor (baseYieldData crop_type) rainfall temperature humidity
          * (1 - disease_yield_loss / 100)) := by
  simp only [physicsFinalYield]
  congr 1
  ring

/-- The recommendation chain collapses to a two-way decision: urgent cash
forces SELL, otherwise STORE exactly when cold storage is available and the
net profit strictly exceeds the threshold. -/
lemma recommendationLabel_eq (cold_storage_available urgent_cash_needed : Bool)
    (net_profit_after_storage profit_threshold : ℚ) :
    recommendationLabel cold_storage_available urgent_cash_needed
        net_profit_after_storage profit_threshold
      = (if urgent_cash_needed then "SELL"
         else if cold_storage_available ∧ profit_threshold < net_profit_after_storage
         then "STORE" else "SELL") := by
  unfold recommendationLabel
  cases urgent_cash_needed <;> cases cold_storage_available <;>
    rcases le_or_lt net_profit_after_storage profit_threshold with h | h <;>
    simp_all

/-! ### Claim theorems -/

/-- C1: `calculate_selling_recommendation` evaluates its decision table in
strict priority order with first match winning: urgent cash always yields
SELL (first conjunct, for every cold-storage flag, hence in particular with
cold storage available); otherwise STORE exactly when cold storage is
available and the net profit after storage costs strictly exceeds the
threshold, and SELL in every remaining case (second conjunct). -/
theorem selling_recommendation_priority
    (predicted_yield current_price peak_price : ℚ) (cold urgent : Bool)
    (profit_threshold : ℚ) :
    (calculate_selling_recommendation predicted_yield current_price peak_price
        cold true profit_threshold).recommendation = "SELL"
    ∧ (calculate_selling_recommendation predicted_yield current_price peak_price
        cold urgent profit_threshold).recommendation
      = (if urgent then "SELL"
         else if cold ∧ profit_threshold
             < (calculate_selling_recommendation predicted_yield current_price
                 peak_price cold urgent profit_threshold).net_profit_after_storage
           then "STORE" else "SELL") := by
  constructor
  · rfl
  · exact recommendationLabel_eq cold urgent _ profit_threshold

/-- C8: the break-even price is guarded against a zero (or negative)
predicted yield: it is `0` whenever the yield is not strictly positive, and
otherwise equals the current price plus the storage cost estimate divided
by the predicted yield (rounded to two decimals as in the source). -/
theorem break_even_price_guarded
    (predicted_yield current_price peak_price : ℚ) (cold urgent : Bool)
    (profit_threshold : ℚ) :
    (calculate_selling_recommendation predicted_yield current_price peak_price
        cold urgent profit_threshold).break_even_price
      = (if 0 < predicted_yield then
          round2 (current_price
            + (calculate_selling_recommendation predicted_yield current_price
                peak_price cold urgent profit_threshold).storage_cost_estimate
              / predicted_yield)
         else 0)
    ∧ (calculate_selling_recommendation 0 current_price peak_price
        cold urgent profit_threshold).break_even_price = 0 := by
  constructor
  · rfl
  · simp only [calculate_selling_recommendation]
    norm_num

/-- C4: `calculate_yield_loss` maps the severity strings low/medium/high,
compared case-insensitively, to exactly 5, 15 and 30 percent, and every
other string to 0. -/
theorem yield_loss_severity_table (severity : String) :
    (pyLower severity = "low" → calculate_yield_loss severity = 5)
    ∧ (pyLower severity = "medium" → calculate_yield_loss severity = 15)
    ∧ (pyLower severity = "high" → calculate_yield_loss severity = 30)
    ∧ (pyLower severity ≠ "low" → pyLower severity ≠ "medium" →
        pyLower severity ≠ "high" → calculate_yield_loss severity = 0) := by
  refine ⟨fun h => ?_, fun h => ?_, fun h => ?_, fun h1 h2 h3 => ?_⟩
  · simp [calculate_yield_loss, h]
  · simp [calculate_yield_loss, h]
  · simp [calculate_yield_loss, h]
  · simp only [calculate_yield_loss]
    rw [if_neg h1, if_neg h2, if_neg h3]

/-- Witness for C4 at the concrete severities LOW, Medium, hIgH and an
unrecognised string. -/
theorem yield_loss_severity_table_witness :
    calculate_yield_loss "LOW" = 5 ∧ calculate_yield_loss "Medium" = 15
    ∧ calculate_yield_loss "hIgH" = 30 ∧ calculate_yield_loss "severe" = 0 :=
  ⟨(yield_loss_severity_table "LOW").1 (by decide),
   (yield_loss_severity_table "Medium").2.1 (by decide),
   (yield_loss_severity_table "hIgH").2.2.1 (by decide),
   (yield_loss_severity_table "severe").2.2.2 (by decide) (by decide) (by decide)⟩

/-- C10: `PricePredictor.predict` substitutes the crop's baseline average
price both when the current price is absent and when it is non-positive,
keeps a strictly positive current price unchanged, and the effective
current price is always strictly positive. -/
theorem effective_current_price_substitution (crop_type : String)
    (current_price : Option ℚ) :
    0 < effectiveCurrentPrice crop_type current_price
    ∧ (current_price = none →
        effectiveCurrentPrice crop_type current_price
          = (baselinePrices crop_type).average)
    ∧ (∀ p, current_price = some p → p ≤ 0 →
        effectiveCurrentPrice crop_type current_price
          = (baselinePrices crop_type).average)
    ∧ (∀ p, current_price = some p → 0 < p →
        effectiveCurrentPrice crop_type current_price = p) := by
  refine ⟨effectiveCurrentPrice_pos crop_type current_price, fun h => ?_,
    fun p hp hle => ?_, fun p hp hpos => ?_⟩
  · subst h; rfl
  · subst hp
    simp only [effectiveCurrentPrice]
    rw [if_pos hle]
  · subst hp
    simp only [effectiveCurrentPrice]
    rw [if_neg (not_le.mpr hpos)]

/-- Witness for C10 at the concrete crop tomato with a negative current
price. -/
theorem effective_current_price_substitution_witness :
    ((-5 : ℚ) ≤ 0)
    ∧ effectiveCurrentPrice "tomato" (some (-5)) = (baselinePrices "tomato").average :=
  ⟨by norm_num,
   (effective_current_price_substitution "tomato" (some (-5))).2.2.1 (-5) rfl
     (by norm_num)⟩

/-- C3: the combined weather factor is the arithmetic mean of the three
breakpoint-table factors clamped to `[0.5, 1.2]`; in particular, for every
crop and every rainfall, temperature and humidity input it lies between
`0.5` and `1.2`.  (The source clamps to `[0.5, 1.3]`, but the mean of the
three factors never exceeds `67/60 < 1.2`, so the two clamps agree.) -/
theorem weather_factor_clamped_range (crop_type : String)
    (rainfall temperature humidity : ℚ) :
    weatherFactor (baseYieldData crop_type) rainfall temperature humidity
      = max 0.5 (min 1.2 ((tempFactor (baseYieldData crop_type) temperature
          + rainFactor (baseYieldData crop_type) rainfall
          + humidFactor (baseYieldData crop_type) humidity) / 3))
    ∧ 0.5 ≤ weatherFactor (baseYieldData crop_type) rainfall temperature humidity
    ∧ weatherFactor (baseYieldData crop_type) rainfall temperature humidity ≤ 1.2 := by
  obtain ⟨ht1, ht2⟩ := tempFactor_bounds (baseYieldData crop_type) temperature
  obtain ⟨hr1, hr2⟩ := rainFactor_bounds (baseYieldData crop_type) rainfall
  obtain ⟨hh1, hh2⟩ := humidFactor_bounds (baseYieldData crop_type) humidity
  rw [weatherFactor_eq_mean]
  refine ⟨?_, by linarith, by linarith⟩
  rw [min_eq_right (by linarith), max_eq_right (by linarith)]

/-- C5: for every crop, acreage (including negative values), weather sample
and disease loss percentage (including values above 100), the final yield
of the physics-based estimator equals
`max 0 (base_yield * weather_factor * (1 - loss/100))`, and in particular
is non-negative; the embedding is a total function, so no input is
rejected. -/
theorem final_yield_formula_total (crop_type : String)
    (acres rainfall temperature humidity disease_yield_loss : ℚ) :
    physicsFinalYield crop_type acres rainfall temperature humidity disease_yield_loss
      = max 0 ((baseYieldData crop_type).average * acres
          * weatherFactor (baseYieldData crop_type) rainfall temperature humidity
          * (1 - disease_yield_loss / 100))
    ∧ 0 ≤ physicsFinalYield crop_type acres rainfall temperature humidity
        disease_yield_loss := by
  refine ⟨physicsFinalYield_eq _ _ _ _ _ _, ?_⟩
  rw [physicsFinalYield_eq]
  exact le_max_left 0 _

/-- C6 (counterexample to the claim as stated): with a disease loss above
100 percent, the physics-based yield is not monotone in acres — at crop
paddy, rainfall 100, temperature 28, humidity 70 and loss 200, the yield at
−1 acres exceeds the yield at 0 acres. -/
theorem yield_monotone_in_acres_counterexample :
    (-1 : ℚ) ≤ 0
    ∧ ¬ (physicsFinalYield "paddy" (-1) 100 28 70 200
          ≤ physicsFinalYield "paddy" 0 100 28 70 200) := by
  have hby : baseYieldData "paddy" = ⟨25, 15, 35, 25, 35, 1200, 2000, 70, 85⟩ := rfl
  have htf : tempFactor (baseYieldData "paddy") 28 = 11/10 := by
    rw [hby]; simp only [tempFactor]; norm_num
  have hrf : rainFactor (baseYieldData "paddy") 100 = 23/20 := by
    rw [hby]; simp only [rainFactor]; norm_num
  have hhf : humidFactor (baseYieldData "paddy") 70 = 11/10 := by
    rw [hby]; simp only [humidFactor]; norm_num
  have hwf : weatherFactor (baseYieldData "paddy") 100 28 70 = 67/60 := by
    rw [weatherFactor_eq_mean, htf, hrf, hhf]; norm_num
  have havg : (baseYieldData "paddy").average = 25 := rfl
  have h1 : physicsFinalYield "paddy" (-1) 100 28 70 200 = 1675/60 := by
    rw [physicsFinalYield_eq, hwf, havg]
    norm_num [max_def]
  have h2 : physicsFinalYield "paddy" 0 100 28 70 200 = 0 := by
    rw [physicsFinalYield_eq, hwf, havg]
    norm_num [max_def]
  rw [h1, h2]
  norm_num

/-- C6 as amended: provided the disease loss percentage does not exceed
100 (true in particular of every severity-derived loss: 0, 5, 15 or 30),
the physics-based final yield is monotonically non-decreasing in the acres
argument, for every crop and fixed weather and disease inputs. -/
theorem yield_monotone_in_acres_amended (crop_type : String)
    (rainfall temperature humidity disease_yield_loss acres1 acres2 : ℚ)
    (hdl : disease_yield_loss ≤ 100) (ha : acres1 ≤ acres2) :
    physicsFinalYield crop_type acres1 rainfall temperature humidity disease_yield_loss
      ≤ physicsFinalYield crop_type acres2 rainfall temperature humidity
          disease_yield_loss := by
  rw [physicsFinalYield_eq, physicsFinalYield_eq]
  have havg := baseYieldData_average_pos crop_type
  have hwf := half_le_weatherFactor (baseYieldData crop_type) rainfall temperature humidity
  have hcoef : 0 ≤ (baseYieldData crop_type).average
      * weatherFactor (baseYieldData crop_type) rainfall temperature humidity
      * (1 - disease_yield_loss / 100) := by
    apply mul_nonneg (mul_nonneg havg.le (by linarith))
    linarith
  apply max_le_max (le_refl 0)
  calc (baseYieldData crop_type).average * acres1
        * weatherFactor (baseYieldData crop_type) rainfall temperature humidity
        * (1 - disease_yield_loss / 100)
      = ((baseYieldData crop_type).average
          * weatherFactor (baseYieldData crop_type) rainfall temperature humidity
          * (1 - disease_yield_loss / 100)) * acres1 := by ring
    _ ≤ ((baseYieldData crop_type).average
          * weatherFactor (baseYieldData crop_type) rainfall temperature humidity
          * (1 - disease_yield_loss / 100)) * acres2 :=
        mul_le_mul_of_nonneg_left ha hcoef
    _ = (baseYieldData crop_type).average * acres2
          * weatherFactor (baseYieldData crop_type) rainfall temperature humidity
          * (1 - disease_yield_loss / 100) := by ring

/-- Witness for the amended C6 at crop paddy, loss 30 percent, acres 2 and 3. -/
theorem yield_monotone_in_acres_amended_witness :
    (30 : ℚ) ≤ 100 ∧ (2 : ℚ) ≤ 3
    ∧ physicsFinalYield "paddy" 2 100 28 70 30
        ≤ physicsFinalYield "paddy" 3 100 28 70 30 :=
  ⟨by norm_num, by norm_num,
   yield_monotone_in_acres_amended "paddy" 100 28 70 30 2 3 (by norm_num) (by norm_num)⟩

/-- C2 (counterexample to the claim as stated): at crop paddy with current
price 100, normal supply and demand, and seasonal draws equal to 1.2 (an
admissible value of `uniform(1.1, 1.3)`), the code returns a peak price of
120, while the claimed formula — current price times the capped factor
product, floored at the crop's historical minimum 1800 — yields 1800. -/
theorem statistical_peak_price_claim_counterexample :
    (predictPrice "paddy" (some 100) 6 "normal" "normal"
        (fun _ => 1.2)).predicted_peak_price = 120
    ∧ claimPeakPriceC2 "paddy" (some 100) "normal" "normal" (fun _ => 1.2) = 1800
    ∧ (predictPrice "paddy" (some 100) 6 "normal" "normal"
        (fun _ => 1.2)).predicted_peak_price
      ≠ claimPeakPriceC2 "paddy" (some 100) "normal" "normal" (fun _ => 1.2) := by
  have hbp : baselinePrices "paddy" = ⟨2200, 1800, 2800, [11, 12, 1], [5, 6, 7]⟩ := rfl
  have hec : effectiveCurrentPrice "paddy" (some 100) = 100 := by
    norm_num [effectiveCurrentPrice]
  have hn : pyLower "normal" = "normal" := rfl
  have hsf : supplyFactor "normal" = 1.0 := by simp [supplyFactor, hn]
  have hdf : demandFactor "normal" = 1.0 := by simp [demandFactor, hn]
  have hps : peakSeasonalFactor (fun _ => 1.2) [11, 12, 1] = 6/5 := by
    simp only [peakSeasonalFactor, List.foldl_cons, List.foldl_nil]
    norm_num [max_def]
  have hpeak : (predictPrice "paddy" (some 100) 6 "normal" "normal"
      (fun _ => 1.2)).predicted_peak_price = 120 := by
    simp only [predictPrice, statisticalPrediction_peak_eq, hec, hbp, hsf, hdf, hps]
    norm_num [max_def, min_def]
  have hclaim : claimPeakPriceC2 "paddy" (some 100) "normal" "normal"
      (fun _ => 1.2) = 1800 := by
    simp only [claimPeakPriceC2, hec, hbp, hsf, hdf, hps]
    norm_num [max_def, min_def]
  refine ⟨hpeak, hclaim, ?_⟩
  rw [hpeak, hclaim]
  norm_num

/-- C2 as amended: the statistical peak price equals the current price
times the factor product capped at `1.5`, additionally capped at the crop's
historical maximum and floored at `1.05` times the current price; it never
exceeds `1.5` times the effective current price.  The floor at the crop's
historical minimum applies to the predicted low price instead. -/
theorem statistical_peak_price_amended (crop_type : String)
    (current_price : Option ℚ) (current_month : ℕ)
    (supply_level demand_level : String) (draw : ℕ → ℚ) :
    (predictPrice crop_type current_price current_month supply_level
        demand_level draw).predicted_peak_price
      = max (min (effectiveCurrentPrice crop_type current_price
            * min (peakSeasonalFactor draw (baselinePrices crop_type).peak_months
                * supplyFactor supply_level * demandFactor demand_level) 1.5)
            (baselinePrices crop_type).max)
          (effectiveCurrentPrice crop_type current_price * 1.05)
    ∧ (predictPrice crop_type current_price current_month supply_level
        demand_level draw).predicted_peak_price
      ≤ 1.5 * effectiveCurrentPrice crop_type current_price
    ∧ (predictPrice crop_type current_price current_month supply_level
        demand_level draw).predicted_low_price
      = max (effectiveCurrentPrice crop_type current_price * 0.85)
          (baselinePrices crop_type).min := by
  have hc := effectiveCurrentPrice_pos crop_type current_price
  refine ⟨rfl, ?_, rfl⟩
  simp only [predictPrice, statisticalPrediction_peak_eq]
  apply max_le
  · calc min (effectiveCurrentPrice crop_type current_price
          * min (peakSeasonalFactor draw (baselinePrices crop_type).peak_months
              * supplyFactor supply_level * demandFactor demand_level) 1.5)
          (baselinePrices crop_type).max
        ≤ effectiveCurrentPrice crop_type current_price
          * min (peakSeasonalFactor draw (baselinePrices crop_type).peak_months
              * supplyFactor supply_level * demandFactor demand_level) 1.5 :=
          min_le_left _ _
      _ ≤ effectiveCurrentPrice crop_type current_price * 1.5 :=
          mul_le_mul_of_nonneg_left (min_le_right _ _) hc.le
      _ = 1.5 * effectiveCurrentPrice crop_type current_price := by ring
  · nlinarith [hc]

/-- C7: with the same seasonal draws, high supply and low demand never
produce a higher statistical peak price than low supply and high demand,
for every crop, current price and month. -/
theorem peak_price_supply_demand_monotone (crop_type : String)
    (current_price : Option ℚ) (current_month : ℕ) (draw : ℕ → ℚ) :
    (predictPrice crop_type current_price current_month "high" "low"
        draw).predicted_peak_price
      ≤ (predictPrice crop_type current_price current_month "low" "high"
          draw).predicted_peak_price := by
  have hc := effectiveCurrentPrice_pos crop_type current_price
  have hs := one_le_peakSeasonalFactor draw (baselinePrices crop_type).peak_months
  have hh : pyLower "high" = "high" := rfl
  have hl : pyLower "low" = "low" := rfl
  have hsf1 : supplyFactor "high" = 0.85 := by simp [supplyFactor, hh]
  have hdf1 : demandFactor "low" = 0.9 := by simp [demandFactor, hl]
  have hsf2 : supplyFactor "low" = 1.2 := by simp [supplyFactor, hl]
  have hdf2 : demandFactor "high" = 1.15 := by simp [demandFactor, hh]
  simp only [predictPrice, statisticalPrediction_peak_eq, hsf1, hdf1, hsf2, hdf2]
  apply max_le_max _ (le_refl _)
  apply min_le_min _ (le_refl _)
  apply mul_le_mul_of_nonneg_left _ hc.le
  apply min_le_min _ (le_refl _)
  nlinarith [hs]

/-- C9: the statistical peak price is always at least `1.05` times the
effective current price, for every crop, month, supply and demand level and
every value of the seasonal draws — even when the crop's historical maximum
lies below that floor. -/
theorem peak_price_min_increase (crop_type : String) (current_price : Option ℚ)
    (current_month : ℕ) (supply_level demand_level : String) (draw : ℕ → ℚ) :
    effectiveCurrentPrice crop_type current_price * 1.05
      ≤ (predictPrice crop_type current_price current_month supply_level
          demand_level draw).predicted_peak_price := by
  simp only [predictPrice, statisticalPrediction_peak_eq]
  exact le_max_right _ _

end AgriForecast
